import Mathlib

/-!
Shallow embedding of the KPI normalization/aggregation pipeline of the
multichannel KPI dashboard.

Sources embedded (translated definition-by-definition from the Python):
* `src/email_campaigns/data/processor.py`  (DataProcessor.process_leads /
  process_campaigns — normalization, lead aggregation, rate recalculation)
* `src/data/data_processor.py`             (the older DataProcessor variant)
* `src/utils/metrics.py` and `src/email_campaigns/services/metrics.py`
  (calculate_kpis / calculate_campaign_kpis / calculate_filtered_kpis /
  calculate_filtered_workspace_kpis; the two `calculate_kpis` and
  `calculate_campaign_kpis` copies are line-identical, so each is embedded
  once)
* `src/shared/date_utils.py` and `src/utils/date_utils.py`
  (filter_dataframe_by_date, two diverging variants)

Modelling conventions:
* Python/pandas floats are modelled as exact rationals, except where the
  IEEE special values matter: pandas division of a positive float by 0.0
  yields +inf and 0.0/0.0 yields NaN, and `.fillna(0)` replaces only NaN.
  The carrier `FV` (finite rational / +inf / -inf / NaN) captures exactly
  this; float rounding error is outside the model.
* pandas timestamps are modelled as integers.  `pd.to_datetime` is library
  code external to the repository; it is modelled by an executable stand-in
  parser (decimal integer literals parse, everything else fails).  All
  proved properties depend only on parse success/failure and on the parsed
  order, never on the concrete parsing rule.
* A raw record value (`RawVal`) is a string, an integer, a list, Python
  `None`, or a pandas `NaN` missing cell.
-/

/-- A pandas float value: finite rational, +inf, -inf, or NaN. -/
inductive FV where
  | fin (q : ℚ)
  | pinf
  | ninf
  | nan
deriving DecidableEq, Repr

/-- Float division as pandas performs it on float64 columns:
`a / 0` is `+inf` for `a > 0`, `-inf` for `a < 0`, and `NaN` for `a = 0`. -/
def fdiv (a b : ℚ) : FV :=
  if b ≠ 0 then .fin (a / b)
  else if 0 < a then .pinf
  else if a < 0 then .ninf
  else .nan

/-- `.fillna(0)`: replaces NaN by 0 and leaves every other value
(including infinities) unchanged. -/
def fillna0 : FV → FV
  | .nan => .fin 0
  | v => v

/-- Multiplication of a float value by the literal 100 (the `* 100` in
`get_rate`); infinities and NaN are absorbing. -/
def fmul100 : FV → FV
  | .fin q => .fin (q * 100)
  | v => v

/-- The finite value of an `FV`, with 0 for the special values.  Spec-side
extraction helper used only to state bounds about rate values. -/
def fvVal : FV → ℚ
  | .fin q => q
  | _ => 0

/-- Python `int(x)` on a float: truncation toward zero. -/
def pyInt (q : ℚ) : ℚ := if 0 ≤ q then (⌊q⌋ : ℚ) else (⌈q⌉ : ℚ)

/-- The numeric columns of one campaign row after the
`pd.to_numeric(...).fillna(0)` cleaning step of `process_campaigns`
(both processor variants guarantee every one of these columns exists and
holds a number; absent columns are created as 0). -/
structure CCounts where
  emails_sent : ℚ := 0
  replied : ℚ := 0
  bounced : ℚ := 0
  leads_contacted : ℚ := 0
  human_reply : ℚ := 0
  interested_sementic : ℚ := 0
  not_interested : ℚ := 0
  automated_replies : ℚ := 0
  unique_replied : ℚ := 0
  total_replies : ℚ := 0
  objection : ℚ := 0
deriving DecidableEq, Repr

/-- The derived rate columns a processed campaign row carries. -/
structure CRates where
  total_reply_rate : FV := .fin 0
  bounce_rate : FV := .fin 0
  human_reply_rate : FV := .fin 0
  semantic_interested_reply_rate : FV := .fin 0
  not_interested_reply_rate : FV := .fin 0
  automated_reply_rate : FV := .fin 0
  objection_rate : FV := .fin 0
deriving DecidableEq, Repr

/-- Rate-recalculation stage of
`src/email_campaigns/data/processor.py::DataProcessor.process_campaigns`
(lines 201-241).  `total_reply_rate`, `bounce_rate` and `human_reply_rate`
are vectorized divisions followed by `.fillna(0)`; the remaining four use a
row-wise `apply` with an explicit positive-denominator guard.
In this module the `automated_reply_rate` denominator is
`leads_contacted`. -/
def process_campaigns_rates_email (c : CCounts) : CRates :=
  { total_reply_rate := fillna0 (fdiv c.total_replies c.leads_contacted)
    bounce_rate := fillna0 (fdiv c.bounced c.leads_contacted)
    human_reply_rate := fillna0 (fdiv c.human_reply c.leads_contacted)
    semantic_interested_reply_rate :=
      if 0 < c.human_reply then .fin (c.interested_sementic / c.human_reply) else .fin 0
    not_interested_reply_rate :=
      if 0 < c.human_reply then .fin (c.not_interested / c.human_reply) else .fin 0
    automated_reply_rate :=
      if 0 < c.leads_contacted then .fin (c.automated_replies / c.leads_contacted) else .fin 0
    objection_rate :=
      if 0 < c.human_reply then .fin (c.objection / c.human_reply) else .fin 0 }

/-- Rate-recalculation stage of
`src/data/data_processor.py::DataProcessor.process_campaigns`
(lines 79-115).  `total_reply_rate` divides `unique_replied` (not
`total_replies`), the `automated_reply_rate` denominator is `human_reply`
(not `leads_contacted`), and no `objection_rate` is computed. -/
structure DRates where
  total_reply_rate : FV := .fin 0
  bounce_rate : FV := .fin 0
  human_reply_rate : FV := .fin 0
  semantic_interested_reply_rate : FV := .fin 0
  not_interested_reply_rate : FV := .fin 0
  automated_reply_rate : FV := .fin 0
deriving DecidableEq, Repr

def process_campaigns_rates_data (c : CCounts) : DRates :=
  { total_reply_rate := fillna0 (fdiv c.unique_replied c.leads_contacted)
    bounce_rate := fillna0 (fdiv c.bounced c.leads_contacted)
    human_reply_rate := fillna0 (fdiv c.human_reply c.leads_contacted)
    semantic_interested_reply_rate :=
      if 0 < c.human_reply then .fin (c.interested_sementic / c.human_reply) else .fin 0
    not_interested_reply_rate :=
      if 0 < c.human_reply then .fin (c.not_interested / c.human_reply) else .fin 0
    automated_reply_rate :=
      if 0 < c.human_reply then .fin (c.automated_replies / c.human_reply) else .fin 0 }

/-- A fully processed campaign row as `process_campaigns` (email variant)
returns it: the cleaned numeric counts together with the recalculated rate
columns. -/
structure CRow where
  counts : CCounts
  rates : CRates
deriving DecidableEq, Repr

/-- Assemble the row `process_campaigns` produces from cleaned counts. -/
def processCampaignRow (c : CCounts) : CRow :=
  { counts := c, rates := process_campaigns_rates_email c }

/-- One normalized lead row as `process_leads` (email variant) guarantees
it for the columns the aggregation and KPI layers read: an integer
`campaign_id`, a stripped string `status`, and numeric `is_human_reply` /
`unique_replies` (non-numeric coerced to 0 by
`pd.to_numeric(...).fillna(0)`). -/
structure LeadRow where
  campaign_id : Int
  status : String
  is_human_reply : ℚ
  unique_replies : ℚ
deriving DecidableEq, Repr

/-- The per-campaign aggregate block computed by the
`leads_df.groupby('campaign_id').agg(...)` call of
`src/email_campaigns/data/processor.py` (lines 131-139). -/
structure AggRow where
  human_reply : ℚ
  interested_sementic : ℚ
  not_interested : ℚ
  automated_replies : ℚ
  total_replies : ℚ
  objection : ℚ
deriving DecidableEq, Repr

/-- The all-zero aggregate the left join fills in for a campaign with no
matching leads (`fillna(0)` on the merged columns). -/
def zeroAgg : AggRow :=
  { human_reply := 0, interested_sementic := 0, not_interested := 0
    automated_replies := 0, total_replies := 0, objection := 0 }

/-- The distinct `campaign_id` keys of a lead table.  (pandas `groupby`
sorts its keys; key order is irrelevant here because the keys are distinct
and the aggregates are consumed through a by-key merge, so any
duplicate-free enumeration of the ids is a faithful model.) -/
def aggKeys (leads : List LeadRow) : List Int :=
  (leads.map LeadRow.campaign_id).dedup

/-- The aggregate functions of the `agg(...)` call, applied to one
groupby group (the lead rows sharing a `campaign_id`):
`human_reply` = sum of `is_human_reply`,
`interested_sementic` = `isin(['Interested'])` count,
`not_interested` = `== 'Not Interested'` count,
`automated_replies` = `== 'Automated Reply'` count,
`total_replies` = `unique_replies >= 1` count,
`objection` = `isin(['Objection', 'Objections'])` count. -/
def aggGroup (g : List LeadRow) : AggRow :=
  { human_reply := (g.map LeadRow.is_human_reply).sum
    interested_sementic := (g.countP (fun l => l.status == "Interested") : ℚ)
    not_interested := (g.countP (fun l => l.status == "Not Interested") : ℚ)
    automated_replies := (g.countP (fun l => l.status == "Automated Reply") : ℚ)
    total_replies := (g.countP (fun l => 1 ≤ l.unique_replies) : ℚ)
    objection := (g.countP (fun l => l.status == "Objection" || l.status == "Objections") : ℚ) }

/-- `agg_stats`: one `(campaign_id, aggregates)` pair per distinct key,
where each group is the rows carrying that key. -/
def aggStats (leads : List LeadRow) : List (Int × AggRow) :=
  (aggKeys leads).map (fun k => (k, aggGroup (leads.filter (fun l => l.campaign_id == k))))

/-- The `merge(agg_stats, on='campaign_id', how='left')` followed by
`fillna(0)` of `process_campaigns`, seen from one campaign row: the
aggregate block for its `campaign_id`, or all zeros when no lead matched. -/
def mergeAgg (cid : Int) (stats : List (Int × AggRow)) : AggRow :=
  match stats.find? (fun p => p.1 == cid) with
  | some p => p.2
  | none => zeroAgg

/-- The KPI dictionary returned by the metrics layer
(`calculate_kpis` / `calculate_campaign_kpis` / `calculate_filtered_kpis`
/ `calculate_filtered_workspace_kpis`).  Count entries are rationals, rate
entries are float values (a stored rate column can carry an infinity). -/
structure KPIs where
  total_sent : ℚ := 0
  total_contacted : ℚ := 0
  overall_reply_rate : FV := .fin 0
  bounce_rate : FV := .fin 0
  replies : ℚ := 0
  bounces : ℚ := 0
  human_reply_rate : FV := .fin 0
  human_replies : ℚ := 0
  interested_rate : FV := .fin 0
  interested_replies : ℚ := 0
  not_interested_rate : FV := .fin 0
  not_interested_replies : ℚ := 0
  automated_rate : FV := .fin 0
  automated_replies : ℚ := 0
  objection_rate : FV := .fin 0
  objection : ℚ := 0
deriving DecidableEq, Repr

/-- `calculate_kpis` (`src/utils/metrics.py` lines 22-95 and the
line-identical copy in `src/email_campaigns/services/metrics.py`):
sum the counts over the campaign table, then apply the guarded rate
formulas times 100.  The empty-table branch returns the zeroed dictionary
(the source's empty-branch literal omits the two objection keys, which no
claim under proof reads on that branch).
Campaign rows produced by the pipeline always carry every summed column,
so the `in campaigns_df.columns` guards all resolve to the column being
present. -/
def calculate_kpis (campaigns : List CRow) : KPIs :=
  if campaigns = [] then {} else
  let total_sent := (campaigns.map (fun r => r.counts.emails_sent)).sum
  let total_contacted := (campaigns.map (fun r => r.counts.leads_contacted)).sum
  let total_replies := (campaigns.map (fun r => r.counts.total_replies)).sum
  let total_bounces := (campaigns.map (fun r => r.counts.bounced)).sum
  let human_replies := (campaigns.map (fun r => r.counts.human_reply)).sum
  let interested_replies := (campaigns.map (fun r => r.counts.interested_sementic)).sum
  let not_interested := (campaigns.map (fun r => r.counts.not_interested)).sum
  let automated_replies := (campaigns.map (fun r => r.counts.automated_replies)).sum
  let objection := (campaigns.map (fun r => r.counts.objection)).sum
  { total_sent := total_sent
    total_contacted := total_contacted
    overall_reply_rate :=
      if 0 < total_contacted then .fin (total_replies / total_contacted * 100) else .fin 0
    bounce_rate :=
      if 0 < total_contacted then .fin (total_bounces / total_contacted * 100) else .fin 0
    replies := total_replies
    bounces := total_bounces
    human_reply_rate :=
      if 0 < total_contacted then .fin (human_replies / total_contacted * 100) else .fin 0
    human_replies := human_replies
    interested_rate :=
      if 0 < human_replies then .fin (interested_replies / human_replies * 100) else .fin 0
    interested_replies := interested_replies
    not_interested_rate :=
      if 0 < human_replies then .fin (not_interested / human_replies * 100) else .fin 0
    not_interested_replies := pyInt not_interested
    automated_rate :=
      if 0 < total_contacted then .fin (automated_replies / total_contacted * 100) else .fin 0
    automated_replies := pyInt automated_replies
    objection_rate :=
      if 0 < human_replies then .fin (objection / human_replies * 100) else .fin 0
    objection := objection }

/-- `calculate_campaign_kpis` (`src/utils/metrics.py` lines 97-153 and the
identical services copy): read the row's stored counts and rate columns,
multiplying each stored rate by 100.  Pipeline rows never carry the
alternate `interested_semantic` spelling, so the spelling fallback resolves
to the `_sementic` columns.  A row drawn from a non-empty campaign table is
never an empty Series, so the `campaign_row.empty` guard is not modelled. -/
def calculate_campaign_kpis (row : CRow) : KPIs :=
  { total_sent := row.counts.emails_sent
    total_contacted := row.counts.leads_contacted
    overall_reply_rate := fmul100 row.rates.total_reply_rate
    bounce_rate := fmul100 row.rates.bounce_rate
    replies := row.counts.total_replies
    bounces := row.counts.bounced
    human_reply_rate := fmul100 row.rates.human_reply_rate
    human_replies := row.counts.human_reply
    interested_rate := fmul100 row.rates.semantic_interested_reply_rate
    interested_replies := row.counts.interested_sementic
    not_interested_rate := fmul100 row.rates.not_interested_reply_rate
    not_interested_replies := pyInt row.counts.not_interested
    automated_rate := fmul100 row.rates.automated_reply_rate
    automated_replies := pyInt row.counts.automated_replies
    objection_rate := fmul100 row.rates.objection_rate
    objection := pyInt row.counts.objection }

/-- `calculate_filtered_kpis`
(`src/email_campaigns/services/metrics.py` lines 155-274): totals
(`emails_sent`, `leads_contacted`) are read unfiltered from the campaign
row; activity counts are recomputed from the date-filtered lead table.  On
an empty filtered table the function returns its literal dictionary with
every activity count and rate 0 (including `bounces` and `bounce_rate`);
on a non-empty one, `bounce_rate`/`bounces` are taken from
`calculate_campaign_kpis(campaign_row)`. -/
def calculate_filtered_kpis (row : CRow) (leads : List LeadRow) : KPIs :=
  let total_sent := row.counts.emails_sent
  let total_contacted := row.counts.leads_contacted
  if leads = [] then
    { total_sent := total_sent
      total_contacted := total_contacted }
  else
  let human_replies := (leads.map LeadRow.is_human_reply).sum
  let interested_replies := (leads.countP (fun l => l.status == "Interested") : ℚ)
  let not_interested_replies := (leads.countP (fun l => l.status == "Not Interested") : ℚ)
  let automated_replies := (leads.countP (fun l => l.status == "Automated Reply") : ℚ)
  let objection_replies :=
    (leads.countP (fun l => l.status == "Objection" || l.status == "Objections") : ℚ)
  let total_replies := (leads.countP (fun l => 1 ≤ l.unique_replies) : ℚ)
  { total_sent := total_sent
    total_contacted := total_contacted
    overall_reply_rate :=
      if 0 < total_contacted then .fin (total_replies / total_contacted * 100) else .fin 0
    bounce_rate := (calculate_campaign_kpis row).bounce_rate
    replies := total_replies
    bounces := (calculate_campaign_kpis row).bounces
    human_reply_rate :=
      if 0 < total_contacted then .fin (human_replies / total_contacted * 100) else .fin 0
    human_replies := human_replies
    interested_rate :=
      if 0 < human_replies then .fin (interested_replies / human_replies * 100) else .fin 0
    interested_replies := interested_replies
    not_interested_rate :=
      if 0 < human_replies then .fin (not_interested_replies / human_replies * 100) else .fin 0
    not_interested_replies := not_interested_replies
    automated_rate :=
      if 0 < total_contacted then .fin (automated_replies / total_contacted * 100) else .fin 0
    automated_replies := automated_replies
    objection_rate :=
      if 0 < human_replies then .fin (objection_replies / human_replies * 100) else .fin 0
    objection := objection_replies }

/-- `calculate_filtered_workspace_kpis`
(`src/email_campaigns/services/metrics.py` lines 276-362): totals and the
bounce figures come unfiltered from the campaign table, activity counts
from the filtered leads; with an empty filtered table all activity figures
are 0 but `bounces`/`bounce_rate` are still the unfiltered ones. -/
def calculate_filtered_workspace_kpis (campaigns : List CRow) (leads : List LeadRow) : KPIs :=
  if campaigns = [] then calculate_kpis campaigns else
  let total_sent := (campaigns.map (fun r => r.counts.emails_sent)).sum
  let total_contacted := (campaigns.map (fun r => r.counts.leads_contacted)).sum
  let total_bounces := (campaigns.map (fun r => r.counts.bounced)).sum
  if leads = [] then
    { total_sent := total_sent
      total_contacted := total_contacted
      bounce_rate :=
        if 0 < total_contacted then .fin (total_bounces / total_contacted * 100) else .fin 0
      bounces := total_bounces }
  else
  let human_replies := (leads.map LeadRow.is_human_reply).sum
  let interested_replies := (leads.countP (fun l => l.status == "Interested") : ℚ)
  let not_interested_replies := (leads.countP (fun l => l.status == "Not Interested") : ℚ)
  let automated_replies := (leads.countP (fun l => l.status == "Automated Reply") : ℚ)
  let objection_replies :=
    (leads.countP (fun l => l.status == "Objection" || l.status == "Objections") : ℚ)
  let total_replies := (leads.countP (fun l => 1 ≤ l.unique_replies) : ℚ)
  { total_sent := total_sent
    total_contacted := total_contacted
    overall_reply_rate :=
      if 0 < total_contacted then .fin (total_replies / total_contacted * 100) else .fin 0
    bounce_rate :=
      if 0 < total_contacted then .fin (total_bounces / total_contacted * 100) else .fin 0
    replies := total_replies
    bounces := total_bounces
    human_reply_rate :=
      if 0 < total_contacted then .fin (human_replies / total_contacted * 100) else .fin 0
    human_replies := human_replies
    interested_rate :=
      if 0 < human_replies then .fin (interested_replies / human_replies * 100) else .fin 0
    interested_replies := interested_replies
    not_interested_rate :=
      if 0 < human_replies then .fin (not_interested_replies / human_replies * 100) else .fin 0
    not_interested_replies := not_interested_replies
    automated_rate :=
      if 0 < total_contacted then .fin (automated_replies / total_contacted * 100) else .fin 0
    automated_replies := automated_replies
    objection_rate :=
      if 0 < human_replies then .fin (objection_replies / human_replies * 100) else .fin 0
    objection := objection_replies }

/-- A raw record/cell value: a string, an integer, a list (Airtable linked
records), Python `None`, or a pandas missing cell (`NaN`). -/
inductive RawVal where
  | vstr (s : String)
  | vint (n : Int)
  | vlist (vs : List RawVal)
  | vnone
  | vnan

/-- The list-unwrapping lambda of both processors
(`lambda x: x[0] if isinstance(x, list) and len(x) > 0 else x`):
the first element of any non-empty list, everything else unchanged. -/
def unwrapLinked : RawVal → RawVal
  | .vlist (v :: _) => v
  | v => v

/-- Digits of a decimal literal folded into a number; `none` on the empty
list or any non-digit character.  (Structural, so it is
kernel-computable, unlike `String.toInt?`.) -/
def parseNatChars (cs : List Char) : Option Nat :=
  match cs with
  | [] => none
  | _ =>
    cs.foldl
      (fun acc c =>
        match acc with
        | some n => if c.isDigit then some (n * 10 + (c.toNat - 48)) else none
        | none => none)
      (some 0)

/-- Decimal integer literal parse (optional leading minus). -/
def parseIntStr (s : String) : Option Int :=
  match s.data with
  | '-' :: rest => (parseNatChars rest).map (fun n => -(n : Int))
  | cs => (parseNatChars cs).map (fun n => (n : Int))

/-- Numeric-literal parse, the stand-in for the library numeric parser of
`pd.to_numeric`: decimal integer literals parse to their value, everything
else fails.  Claims depend only on success/failure. -/
def parseNumStr (s : String) : Option ℚ := (parseIntStr s).map (fun n => (n : ℚ))

/-- One cell under `pd.to_numeric(..., errors='coerce')`: numbers and
numeric strings parse, lists / `None` / `NaN` / other strings coerce to
missing. -/
def toNumericCell : RawVal → Option ℚ
  | .vstr s => parseNumStr s
  | .vint n => some (n : ℚ)
  | .vlist _ => none
  | .vnone => none
  | .vnan => none

/-- `pd.to_numeric(...).fillna(0)` on one cell. -/
def numFill (o : Option ℚ) : ℚ := o.getD 0

/-- Cleaning of one cell of a declared numeric campaign column
(`process_campaigns` numeric_cols loop): unwrap a linked-record list, then
tolerant numeric coercion with 0 default. -/
def normalizeNumCell (v : RawVal) : ℚ := numFill (toNumericCell (unwrapLinked v))

/-- Cleaning of one cell of a declared identifier column
(`process_leads` id_cols loop): as `normalizeNumCell`, then
`.astype(int)` truncation toward zero. -/
def normalizeIdCell (v : RawVal) : Int :=
  let q := normalizeNumCell v
  if 0 ≤ q then ⌊q⌋ else ⌈q⌉

mutual

/-- Python `repr(x)`, as list elements render inside `str(list)`:
strings are single-quoted, lists bracketed recursively. -/
def pyReprOf : RawVal → String
  | .vstr s => "'" ++ s ++ "'"
  | .vint n => toString n
  | .vnone => "None"
  | .vnan => "nan"
  | .vlist vs => "[" ++ pyReprList vs ++ "]"

/-- Python `repr` of the elements of a list, comma-joined. -/
def pyReprList : List RawVal → String
  | [] => ""
  | [v] => pyReprOf v
  | v :: vs => pyReprOf v ++ ", " ++ pyReprList vs

end

/-- Python `str(x)` as pandas `astype(str)` applies it to an object cell:
`None` renders as `"None"`, a missing cell as `"nan"`, a list as its
bracketed `repr` rendering. -/
def pyStrOf : RawVal → String
  | .vstr s => s
  | .vint n => toString n
  | .vnone => "None"
  | .vnan => "nan"
  | .vlist vs => "[" ++ pyReprList vs ++ "]"

/-- Python `str.strip()`: drop leading and trailing whitespace
characters.  (Implemented over the character list so it is
kernel-computable.) -/
def pyStrip (s : String) : String :=
  String.mk (((s.data.dropWhile Char.isWhitespace).reverse.dropWhile Char.isWhitespace).reverse)

/-- One cell of a declared string column after
`df[col].astype(str).str.strip()`. -/
def strCleanCell (v : RawVal) : String := pyStrip (pyStrOf v)

/-- A raw record: an association list from column name to value (absent
key = column missing from that record). -/
abbrev RawRecord := List (String × RawVal)

/-- The string column `col` of the table `process_leads` returns, built
from its raw records exactly as the source does: `pd.DataFrame(records)`
materializes the column when any record carries the key (missing cells
become `NaN`); otherwise the `df[col] = None` default step fills the whole
column with Python `None`; then `astype(str).str.strip()` runs over it. -/
def process_leads_string_col (records : List RawRecord) (col : String) : List String :=
  if records.isEmpty then [] else
  let present := records.any (fun r => (r.lookup col).isSome)
  records.map (fun r =>
    strCleanCell (if present then (r.lookup col).getD .vnan else .vnone))

/-- A pandas column for the date-filter model: either a raw object column
or a datetime64 column (with timezone-awareness flag; `NaT` is `none`). -/
inductive PCol where
  | raw (cells : List RawVal)
  | dts (tz : Bool) (cells : List (Option Int))

def pcolLen : PCol → Nat
  | .raw cells => cells.length
  | .dts _ cells => cells.length

/-- A pandas DataFrame for the date-filter model: named columns of equal
length. -/
structure PTable where
  cols : List (String × PCol)

/-- `df.empty`: no rows (or no columns at all). -/
def PTable.isEmpty (t : PTable) : Bool := t.cols.all (fun c => pcolLen c.2 == 0)

def PTable.getCol (t : PTable) (name : String) : Option PCol := t.cols.lookup name

def PTable.setCol (t : PTable) (name : String) (c : PCol) : PTable :=
  { cols := t.cols.map (fun p => if p.1 = name then (p.1, c) else p) }

/-- Date-literal parse, the stand-in for the library timestamp parser of
`pd.to_datetime`: decimal integer literals parse, everything else fails.
Claims depend only on success/failure and order of parsed values. -/
def parseDateStr (s : String) : Option Int := parseIntStr s

/-- One cell under `pd.to_datetime(..., errors='coerce')`: `None`/`NaN`
become `NaT`, unparseable values become `NaT`. -/
def toDatetimeCell : RawVal → Option Int
  | .vstr s => parseDateStr s
  | .vint n => some n
  | .vlist _ => none
  | .vnone => none
  | .vnan => none

/-- `pd.to_datetime(column, errors='coerce')`: parse a raw column cellwise
(never raises); a datetime column passes through unchanged. -/
def toDatetimeCoerce : PCol → PCol
  | .raw cells => .dts false (cells.map toDatetimeCell)
  | .dts tz cells => .dts tz cells

/-- `pd.to_datetime(column)` with the default `errors='raise'`:
`None`/`NaN` still become `NaT`, but any other unparseable cell raises
(modelled as `none`). -/
def toDatetimeStrictCell : RawVal → Option (Option Int)
  | .vnone => some none
  | .vnan => some none
  | .vint n => some (some n)
  | .vstr s => (parseDateStr s).map some
  | .vlist _ => none

def toDatetimeStrict (c : PCol) : Option PCol :=
  match c with
  | .raw cells => (cells.mapM toDatetimeStrictCell).map (PCol.dts false)
  | .dts tz cells => some (.dts tz cells)

/-- `pd.api.types.is_datetime64_any_dtype`. -/
def isDatetimeDtype : PCol → Bool
  | .dts _ _ => true
  | .raw _ => false

/-- Inclusive range check on one datetime cell; a `NaT` never matches
(pandas comparisons with `NaT` are `False`). -/
def inRangeO (s e : Int) (o : Option Int) : Bool :=
  match o with
  | some v => decide (s ≤ v) && decide (v ≤ e)
  | none => false

/-- The boolean mask `(df[col] >= start) & (df[col] <= end)`.  (A raw
object column never reaches the comparison in either source variant; the
all-false row is a placeholder for that unreachable case.) -/
def dateMask (c : PCol) (s e : Int) : List Bool :=
  match c with
  | .dts _ cells => cells.map (inRangeO s e)
  | .raw cells => cells.map (fun _ => false)

/-- `df.loc[mask]` on one column. -/
def filterColByMask (c : PCol) (m : List Bool) : PCol :=
  match c with
  | .raw cells => .raw ((cells.zip m).filterMap (fun p => if p.2 then some p.1 else none))
  | .dts tz cells => .dts tz ((cells.zip m).filterMap (fun p => if p.2 then some p.1 else none))

/-- `df.loc[mask]` on the whole table. -/
def filterTableByMask (t : PTable) (m : List Bool) : PTable :=
  { cols := t.cols.map (fun p => (p.1, filterColByMask p.2 m)) }

/-- `dt.tz_localize(None)` when the column is tz-aware (keeps wall-clock
values, drops awareness). -/
def tzStrip : PCol → PCol
  | .dts _ cells => .dts false cells
  | c => c

/-- `filter_dataframe_by_date` of `src/shared/date_utils.py`
(lines 76-110), returned as `(table after the call, filtered subset)`:
empty table or missing column returns unchanged; otherwise the date column
is reassigned in place with `pd.to_datetime(..., errors='coerce')` (which
never raises, so the guarding `except` branch is dead) and, if tz-aware,
tz-stripped; then the inclusive mask selects the subset.  The
tz-stripping of the `start_date`/`end_date` arguments is value-preserving
in this model, where bounds are naive integers. -/
def shared_filter_dataframe_by_date (t : PTable) (col : String) (s e : Int) :
    PTable × PTable :=
  if t.isEmpty || (t.getCol col).isNone then (t, t)
  else
    match t.getCol col with
    | none => (t, t)
    | some c =>
      let c2 := tzStrip (toDatetimeCoerce c)
      let t2 := t.setCol col c2
      (t2, filterTableByMask t2 (dateMask c2 s e))

/-- `filter_dataframe_by_date` of `src/utils/date_utils.py` (lines 58-73),
returned as `(table after the call, filtered subset)`: empty table or
missing column returns unchanged; a column already of datetime dtype is
used as-is; otherwise `pd.to_datetime` with `errors='raise'` runs — if any
cell fails to parse it raises before the column assignment and the
`except` branch returns the input table whole and unmutated. -/
def utils_filter_dataframe_by_date (t : PTable) (col : String) (s e : Int) :
    PTable × PTable :=
  if t.isEmpty || (t.getCol col).isNone then (t, t)
  else
    match t.getCol col with
    | none => (t, t)
    | some c =>
      if isDatetimeDtype c then
        (t, filterTableByMask t (dateMask c s e))
      else
        match toDatetimeStrict c with
        | none => (t, t)
        | some c2 =>
          let t2 := t.setCol col c2
          (t2, filterTableByMask t2 (dateMask c2 s e))

/-! ## Helper lemmas -/

/-- Filtering a list through the boolean mask obtained by mapping a
predicate over it is plain `filter`. -/
theorem zip_mask_filter {α : Type} (l : List α) (p : α → Bool) :
    (l.zip (l.map p)).filterMap (fun q => if q.2 then some q.1 else none) = l.filter p := by
  induction l with
  | nil => rfl
  | cons a l ih =>
    by_cases h : p a <;> simp [List.filter_cons, h, ih]

/-- `List.lookup` past a head entry with a different key. -/
theorem lookup_cons_ne {β : Type} (a k : String) (b : β) (es : List (String × β))
    (h : a ≠ k) : List.lookup a ((k, b) :: es) = List.lookup a es := by
  have hb : (a == k) = false := by simp [h]
  simp [List.lookup, hb]

/-- `lookup` through a map that keeps keys and transforms values. -/
theorem lookup_map_values (l : List (String × PCol)) (g : PCol → PCol) (name : String) :
    (l.map (fun p => (p.1, g p.2))).lookup name = (l.lookup name).map g := by
  induction l with
  | nil => rfl
  | cons kv l ih =>
    obtain ⟨k, v⟩ := kv
    by_cases h : name = k
    · subst h
      rw [List.map_cons, List.lookup_cons_self, List.lookup_cons_self]
      rfl
    · rw [List.map_cons, lookup_cons_ne _ _ _ _ h, lookup_cons_ne _ _ _ _ h, ih]

/-- `lookup` through the conditional rewrite `setCol` performs, at the
written key. -/
theorem lookup_set (l : List (String × PCol)) (col : String) (c : PCol) :
    (l.map (fun p => if p.1 = col then (p.1, c) else p)).lookup col =
      (l.lookup col).map (fun _ => c) := by
  induction l with
  | nil => rfl
  | cons kv l ih =>
    obtain ⟨k, v⟩ := kv
    by_cases hk : k = col
    · subst hk
      rw [List.map_cons, if_pos rfl, List.lookup_cons_self, List.lookup_cons_self]
      rfl
    · have hik : (if (k, v).1 = col then ((k, v).1, c) else (k, v)) = (k, v) := if_neg hk
      rw [List.map_cons, hik, lookup_cons_ne _ _ _ _ (fun hh => hk hh.symm),
        lookup_cons_ne _ _ _ _ (fun hh => hk hh.symm), ih]

/-- `lookup` through the conditional rewrite `setCol` performs, at any
other key. -/
theorem lookup_set_ne (l : List (String × PCol)) (col name : String) (c : PCol)
    (h : name ≠ col) :
    (l.map (fun p => if p.1 = col then (p.1, c) else p)).lookup name = l.lookup name := by
  induction l with
  | nil => rfl
  | cons kv l ih =>
    obtain ⟨k, v⟩ := kv
    by_cases hk : k = col
    · subst hk
      rw [List.map_cons, if_pos rfl, lookup_cons_ne _ _ _ _ h, lookup_cons_ne _ _ _ _ h, ih]
    · have hik : (if (k, v).1 = col then ((k, v).1, c) else (k, v)) = (k, v) := if_neg hk
      by_cases hn : name = k
      · subst hn
        rw [List.map_cons, hik, List.lookup_cons_self, List.lookup_cons_self]
      · rw [List.map_cons, hik, lookup_cons_ne _ _ _ _ hn, lookup_cons_ne _ _ _ _ hn, ih]

/-- `getCol` of the filtered table. -/
theorem getCol_filterTableByMask (t : PTable) (m : List Bool) (name : String) :
    (filterTableByMask t m).getCol name = (t.getCol name).map (fun c => filterColByMask c m) := by
  unfold filterTableByMask PTable.getCol
  exact lookup_map_values t.cols (fun c => filterColByMask c m) name

/-- `getCol` after `setCol` at the written name (when the column was
present). -/
theorem getCol_setCol (t : PTable) (col : String) (c : PCol)
    (h : (t.getCol col).isSome) : (t.setCol col c).getCol col = some c := by
  unfold PTable.setCol PTable.getCol at *
  rw [lookup_set]
  obtain ⟨x, hx⟩ := Option.isSome_iff_exists.mp h
  rw [hx]
  rfl

/-- `getCol` after `setCol` at a different name. -/
theorem getCol_setCol_ne (t : PTable) (col name : String) (c : PCol)
    (h : name ≠ col) : (t.setCol col c).getCol name = t.getCol name := by
  unfold PTable.setCol PTable.getCol
  exact lookup_set_ne t.cols col name c h

/-- `find?` over a keyed map hits exactly the searched key. -/
theorem find?_key_map (ks : List Int) (f : Int → AggRow) (cid : Int) :
    ((ks.map (fun k => (k, f k))).find? (fun p => p.1 == cid)) =
      if cid ∈ ks then some (cid, f cid) else none := by
  induction ks with
  | nil => simp
  | cons k ks ih =>
    by_cases hk : k = cid
    · subst hk; simp
    · have h1 : (k == cid) = false := by simp [hk]
      have hstep : List.find? (fun p => p.1 == cid) ((k, f k) :: ks.map (fun k => (k, f k)))
          = List.find? (fun p => p.1 == cid) (ks.map (fun k => (k, f k))) := by
        simp [List.find?, h1]
      have hmem : (cid ∈ k :: ks) ↔ (cid ∈ ks) := by
        constructor
        · intro hm
          rcases List.mem_cons.mp hm with hm | hm
          · exact absurd hm.symm hk
          · exact hm
        · exact fun hm => List.mem_cons.mpr (Or.inr hm)
      rw [List.map_cons, hstep, ih, if_congr hmem rfl rfl]

/-! ## C1 -/

/-- C1: the spec requires every §4.3 rate to be exactly 0 on a zero
denominator and every produced rate to lie in [0,100]; but the
`fillna(0)`-based rate recalculations of `process_campaigns` (both
processor variants) store `+inf` for a campaign with
`bounced = 5, leads_contacted = 0` — `5.0/0.0` is `+inf`, not `NaN`, so
`.fillna(0)` does not replace it — and `calculate_campaign_kpis` then
reports that `+inf` outward, which is neither 0 nor within [0,100].  The
guarded summary path (`calculate_kpis`) does return 0 on the same data, as
do the `apply`-based rates of the same processor function: the zero-on-zero
policy is the code's documented intent, missed by the three vectorized
divisions. -/
theorem processor_bounce_rate_inf_on_zero_denominator :
    (process_campaigns_rates_email { bounced := 5, leads_contacted := 0 }).bounce_rate
      = FV.pinf ∧
    (process_campaigns_rates_data { bounced := 5, leads_contacted := 0 }).bounce_rate
      = FV.pinf ∧
    (calculate_campaign_kpis
        (processCampaignRow { bounced := 5, leads_contacted := 0 })).bounce_rate
      = FV.pinf ∧
    (calculate_kpis [processCampaignRow { bounced := 5, leads_contacted := 0 }]).bounce_rate
      = FV.fin 0 ∧
    FV.pinf ≠ FV.fin 0 := by
  refine ⟨?_, ?_, ?_, ?_, by simp⟩ <;>
    norm_num [process_campaigns_rates_email, process_campaigns_rates_data,
      calculate_campaign_kpis, calculate_kpis, processCampaignRow, fdiv, fillna0, fmul100]

/-! ## C2 -/

/-- C2 (counterexample): the claim says every module computing
`automated_reply_rate` divides `automated_replies` by `leads_contacted`.
On the same campaign counts (`automated_replies = 2`, `human_reply = 4`,
`leads_contacted = 10`, all positive) the `src/data/data_processor.py`
variant stores `2/4 = 1/2`, not `2/10 = 1/5`: its denominator is
`human_reply`, so the claim is false for that module. -/
theorem automated_rate_denominator_divergence_cex :
    (process_campaigns_rates_data
        { automated_replies := 2, human_reply := 4, leads_contacted := 10 }).automated_reply_rate
      = FV.fin (1 / 2) ∧
    (process_campaigns_rates_email
        { automated_replies := 2, human_reply := 4, leads_contacted := 10 }).automated_reply_rate
      = FV.fin (1 / 5) ∧
    FV.fin ((1 : ℚ) / 2) ≠ FV.fin ((2 : ℚ) / 10) := by
  refine ⟨?_, ?_, ?_⟩ <;>
    norm_num [process_campaigns_rates_data, process_campaigns_rates_email]

/-- C2 (amended): the two modules disagree.  The email-channel processor
computes `automated_reply_rate = automated_replies / leads_contacted`
(0 when the denominator is not positive); the `src/data` processor
computes `automated_reply_rate = automated_replies / human_reply`
(0 when `human_reply` is not positive). -/
theorem automated_rate_two_denominators (c : CCounts) :
    (0 < c.leads_contacted →
      (process_campaigns_rates_email c).automated_reply_rate
        = FV.fin (c.automated_replies / c.leads_contacted)) ∧
    (¬ 0 < c.leads_contacted →
      (process_campaigns_rates_email c).automated_reply_rate = FV.fin 0) ∧
    (0 < c.human_reply →
      (process_campaigns_rates_data c).automated_reply_rate
        = FV.fin (c.automated_replies / c.human_reply)) ∧
    (¬ 0 < c.human_reply →
      (process_campaigns_rates_data c).automated_reply_rate = FV.fin 0) := by
  refine ⟨fun h => ?_, fun h => ?_, fun h => ?_, fun h => ?_⟩ <;>
    simp [process_campaigns_rates_email, process_campaigns_rates_data, h]

/-- C2 witness. -/
theorem automated_rate_two_denominators_witness :
    (process_campaigns_rates_email
        { automated_replies := 2, human_reply := 4, leads_contacted := 10 }).automated_reply_rate
      = FV.fin ((2 : ℚ) / 10) ∧
    (process_campaigns_rates_data
        { automated_replies := 2, human_reply := 4, leads_contacted := 10 }).automated_reply_rate
      = FV.fin ((2 : ℚ) / 4) :=
  ⟨(automated_rate_two_denominators _).1 (by norm_num),
   (automated_rate_two_denominators _).2.2.1 (by norm_num)⟩

/-! ## C3 -/

/-- The campaign row of the hybrid-denominator scenario:
`leads_contacted = 100`, `bounced = 10`, so the stored `bounce_rate`
fraction is `10/100`. -/
def hybridScenarioRow : CRow :=
  processCampaignRow
    { emails_sent := 500, leads_contacted := 100, bounced := 10
      human_reply := 40, total_replies := 50, interested_sementic := 20 }

/-- The date-filtered lead table of the scenario: exactly three rows, each
with `is_human_reply = 1`. -/
def hybridScenarioLeads : List LeadRow :=
  [{ campaign_id := 1, status := "Interested", is_human_reply := 1, unique_replies := 1 },
   { campaign_id := 1, status := "Not Interested", is_human_reply := 1, unique_replies := 1 },
   { campaign_id := 1, status := "Out Of Office", is_human_reply := 1, unique_replies := 1 }]

/-- C3: on a campaign row with `leads_contacted = 100` and `bounced = 10`
(stored `bounce_rate` fraction `10/100`) and a date-filtered lead table of
exactly 3 rows with `is_human_reply = 1`, `calculate_filtered_kpis`
reports `total_contacted = 100`, `bounce_rate = 10.0` and
`human_reply_rate = 3.0`: the denominator stays the unfiltered contacted
total while the human-reply numerator comes from the filtered subset. -/
theorem filtered_kpis_hybrid_denominator_scenario :
    hybridScenarioRow.rates.bounce_rate = FV.fin (10 / 100) ∧
    hybridScenarioLeads.length = 3 ∧
    (hybridScenarioLeads.map LeadRow.is_human_reply).sum = 3 ∧
    (calculate_filtered_kpis hybridScenarioRow hybridScenarioLeads).total_contacted = 100 ∧
    (calculate_filtered_kpis hybridScenarioRow hybridScenarioLeads).bounce_rate = FV.fin 10 ∧
    (calculate_filtered_kpis hybridScenarioRow hybridScenarioLeads).human_reply_rate
      = FV.fin 3 := by
  refine ⟨?_, rfl, ?_, ?_, ?_, ?_⟩ <;>
    simp [hybridScenarioRow, hybridScenarioLeads, calculate_filtered_kpis,
      calculate_campaign_kpis, processCampaignRow, process_campaigns_rates_email,
      fdiv, fillna0, fmul100] <;>
    norm_num [fillna0, fmul100]

/-! ## C4 -/

/-- C4 (counterexample): the claim says that with a non-empty campaign
input and an empty date-filtered lead table the bounced count and its
bounce_rate are still reported from the unfiltered campaign data.  For the
single-campaign variant this fails: on a campaign with `bounced = 10`,
`leads_contacted = 100` (unfiltered bounce rate 10.0) and an empty
filtered lead table, `calculate_filtered_kpis` reports `bounce_rate = 0.0`
and `bounces = 0`. -/
theorem filtered_kpis_empty_bounce_zeroed_cex :
    (calculate_filtered_kpis hybridScenarioRow []).bounce_rate = FV.fin 0 ∧
    (calculate_filtered_kpis hybridScenarioRow []).bounces = 0 ∧
    (calculate_filtered_kpis hybridScenarioRow []).total_sent = 500 ∧
    (calculate_filtered_kpis hybridScenarioRow []).total_contacted = 100 ∧
    hybridScenarioRow.counts.bounced = 10 ∧
    (calculate_campaign_kpis hybridScenarioRow).bounce_rate = FV.fin 10 ∧
    FV.fin (0 : ℚ) ≠ FV.fin (10 : ℚ) := by
  refine ⟨rfl, rfl, ?_, ?_, ?_, ?_, ?_⟩ <;>
    simp [hybridScenarioRow, calculate_filtered_kpis, calculate_campaign_kpis,
      processCampaignRow, process_campaigns_rates_email, fdiv, fillna0, fmul100]

/-- C4 (amended): with an empty date-filtered lead table, both filtered
KPI functions report the unfiltered `total_sent` and `total_contacted` and
zero for every activity count and rate; the workspace variant additionally
reports the unfiltered bounced count and its rate, while the
single-campaign variant reports `bounces = 0` and `bounce_rate = 0`
(not the unfiltered figures). -/
theorem filtered_kpis_empty_leads_behavior (row : CRow) (campaigns : List CRow)
    (hne : campaigns ≠ []) :
    calculate_filtered_kpis row [] =
      { total_sent := row.counts.emails_sent
        total_contacted := row.counts.leads_contacted } ∧
    calculate_filtered_workspace_kpis campaigns [] =
      { total_sent := (campaigns.map (fun r => r.counts.emails_sent)).sum
        total_contacted := (campaigns.map (fun r => r.counts.leads_contacted)).sum
        bounces := (campaigns.map (fun r => r.counts.bounced)).sum
        bounce_rate :=
          if 0 < (campaigns.map (fun r => r.counts.leads_contacted)).sum then
            FV.fin ((campaigns.map (fun r => r.counts.bounced)).sum
              / (campaigns.map (fun r => r.counts.leads_contacted)).sum * 100)
          else FV.fin 0 } := by
  constructor
  · rfl
  · unfold calculate_filtered_workspace_kpis
    rw [if_neg hne]
    rfl

/-- C4 witness. -/
theorem filtered_kpis_empty_leads_behavior_witness :
    calculate_filtered_kpis hybridScenarioRow [] =
      { total_sent := hybridScenarioRow.counts.emails_sent
        total_contacted := hybridScenarioRow.counts.leads_contacted } ∧
    calculate_filtered_workspace_kpis [hybridScenarioRow] [] =
      { total_sent := ([hybridScenarioRow].map (fun r => r.counts.emails_sent)).sum
        total_contacted := ([hybridScenarioRow].map (fun r => r.counts.leads_contacted)).sum
        bounces := ([hybridScenarioRow].map (fun r => r.counts.bounced)).sum
        bounce_rate :=
          if 0 < ([hybridScenarioRow].map (fun r => r.counts.leads_contacted)).sum then
            FV.fin (([hybridScenarioRow].map (fun r => r.counts.bounced)).sum
              / ([hybridScenarioRow].map (fun r => r.counts.leads_contacted)).sum * 100)
          else FV.fin 0 } :=
  filtered_kpis_empty_leads_behavior hybridScenarioRow [hybridScenarioRow]
    (by simp)

/-! ## C5 -/

/-- C5: for every normalized lead table and every campaign id, the merged
aggregate block for that campaign carries exactly the spec's group
formulas over the rows with that `campaign_id`: `human_reply` is the sum
of `is_human_reply`, `interested_sementic` / `not_interested` /
`automated_replies` count the statuses `"Interested"` /
`"Not Interested"` / `"Automated Reply"`, `objection` counts statuses in
{"Objection", "Objections"}, and `total_replies` counts rows with
`unique_replies >= 1` (all zero when no lead matches, by the left-join
fill). -/
theorem aggregator_group_counts (leads : List LeadRow) (cid : Int) :
    mergeAgg cid (aggStats leads) =
      { human_reply :=
          ((leads.filter (fun l => l.campaign_id == cid)).map LeadRow.is_human_reply).sum
        interested_sementic :=
          ((leads.filter (fun l => l.campaign_id == cid)).countP
            (fun l => l.status == "Interested") : ℚ)
        not_interested :=
          ((leads.filter (fun l => l.campaign_id == cid)).countP
            (fun l => l.status == "Not Interested") : ℚ)
        automated_replies :=
          ((leads.filter (fun l => l.campaign_id == cid)).countP
            (fun l => l.status == "Automated Reply") : ℚ)
        total_replies :=
          ((leads.filter (fun l => l.campaign_id == cid)).countP
            (fun l => 1 ≤ l.unique_replies) : ℚ)
        objection :=
          ((leads.filter (fun l => l.campaign_id == cid)).countP
            (fun l => l.status == "Objection" || l.status == "Objections") : ℚ) } := by
  unfold mergeAgg aggStats
  rw [find?_key_map]
  by_cases hm : cid ∈ aggKeys leads
  · rw [if_pos hm]
    rfl
  · rw [if_neg hm]
    have hfil : leads.filter (fun l => l.campaign_id == cid) = [] := by
      rw [List.filter_eq_nil_iff]
      intro l hl hlc
      apply hm
      unfold aggKeys
      rw [List.mem_dedup]
      rw [beq_iff_eq] at hlc
      exact hlc ▸ List.mem_map_of_mem LeadRow.campaign_id hl
    rw [hfil]
    rfl

/-! ## C6 -/

/-- C6 (counterexample): the claim says a multi-element list value is left
as-is by the unwrapping step, so numeric coercion then yields 0.  The
unwrapping lambda tests `len(x) > 0`, not `len(x) == 1`: the two-element
list `[7, 9]` is replaced by its first element `7`, and the subsequent
numeric coercion yields `7`, not `0`. -/
theorem unwrap_multielement_list_cex :
    unwrapLinked (RawVal.vlist [RawVal.vint 7, RawVal.vint 9]) = RawVal.vint 7 ∧
    unwrapLinked (RawVal.vlist [RawVal.vint 7, RawVal.vint 9])
      ≠ RawVal.vlist [RawVal.vint 7, RawVal.vint 9] ∧
    normalizeNumCell (RawVal.vlist [RawVal.vint 7, RawVal.vint 9]) = 7 ∧
    (7 : ℚ) ≠ 0 := by
  refine ⟨rfl, fun h => RawVal.noConfusion h, ?_, by norm_num⟩
  norm_num [normalizeNumCell, unwrapLinked, toNumericCell, numFill]

/-- C6 (amended): the unwrapping step replaces any non-empty list —
single- or multi-element — by its first element; it is the identity on the
empty list and on every non-list value; an empty list subsequently coerces
to 0. -/
theorem unwrap_first_element_semantics :
    (∀ (v : RawVal) (vs : List RawVal), unwrapLinked (RawVal.vlist (v :: vs)) = v) ∧
    (unwrapLinked (RawVal.vlist []) = RawVal.vlist []) ∧
    (∀ v : RawVal, (∀ vs, v ≠ RawVal.vlist vs) → unwrapLinked v = v) ∧
    (normalizeNumCell (RawVal.vlist []) = 0) := by
  refine ⟨fun v vs => rfl, rfl, ?_, rfl⟩
  intro v hv
  cases v with
  | vlist vs => exact absurd rfl (hv vs)
  | vstr s => rfl
  | vint n => rfl
  | vnone => rfl
  | vnan => rfl

/-- C6 witness. -/
theorem unwrap_first_element_semantics_witness :
    unwrapLinked (RawVal.vstr "7") = RawVal.vstr "7" :=
  unwrap_first_element_semantics.2.2.1 (RawVal.vstr "7")
    (fun _ h => RawVal.noConfusion h)

/-! ## C7 -/

/-- C7 (counterexample): the claim says a declared string column absent
from every record is populated with the empty string `""`.  The default
step writes Python `None` into the column and `astype(str)` then renders
it as the literal string `"None"`: for a one-record table with no
`status` key, the returned `status` column is `["None"]`, not `[""]`. -/
theorem absent_string_column_none_cex :
    process_leads_string_col [[("campaign_id", RawVal.vint 1)]] "status" = ["None"] ∧
    "None" ≠ "" := by
  exact ⟨rfl, by simp⟩

/-- C7 (amended): for every non-empty raw record list in which a declared
string column is absent from every record, `process_leads` still returns
that column, populated in every row — but with the stringified null
`"None"` (whitespace-stripped, string-typed), not with `""`. -/
theorem absent_string_column_filled_none (records : List RawRecord) (col : String)
    (hne : records ≠ []) (habs : ∀ r ∈ records, (r.lookup col).isNone) :
    process_leads_string_col records col = records.map (fun _ => "None") := by
  unfold process_leads_string_col
  have h1 : records.isEmpty = false := by
    rw [List.isEmpty_eq_false]
    exact hne
  have h2 : records.any (fun r => (r.lookup col).isSome) = false := by
    rw [List.any_eq_false]
    intro r hr
    have h := habs r hr
    rw [Option.isNone_iff_eq_none] at h
    simp [h]
  rw [h1, h2]
  simp only [Bool.false_eq_true, if_false, reduceIte]
  have h3 : strCleanCell RawVal.vnone = "None" := rfl
  simp [h3]

/-- C7 witness. -/
theorem absent_string_column_filled_none_witness :
    process_leads_string_col [[("campaign_id", RawVal.vint 3)]] "bounce_type"
      = [[("campaign_id", RawVal.vint 3)]].map (fun _ => "None") :=
  absent_string_column_filled_none [[("campaign_id", RawVal.vint 3)]] "bounce_type"
    (fun h => List.noConfusion h)
    (by
      intro r hr
      rw [List.mem_singleton] at hr
      subst hr
      rfl)

/-! ## C8 -/

/-- The two-row table whose `Date` column holds one parseable and one
unparseable value. -/
def mixedDateTable : PTable :=
  { cols := [("Date", PCol.raw [RawVal.vstr "100", RawVal.vstr "garbage"]),
             ("val", PCol.raw [RawVal.vint 1, RawVal.vint 2])] }

/-- C8 (counterexample): the claim says each unparseable date value makes
only its own row non-matching (excluded) in every variant.  The
`src/utils/date_utils.py` variant instead converts with
`errors='raise'`: one unparseable cell (`"garbage"`) makes the whole
conversion raise, the `except` branch returns the table whole, and the
unparseable row (and every other row, filtered or not) is returned —
nothing is excluded even though the interval `[0, 200]` only matches the
first row. -/
theorem utils_date_filter_unparseable_cex :
    utils_filter_dataframe_by_date mixedDateTable "Date" 0 200
      = (mixedDateTable, mixedDateTable) ∧
    toDatetimeCell (RawVal.vstr "garbage") = none ∧
    mixedDateTable.getCol "Date" = some (PCol.raw [RawVal.vstr "100", RawVal.vstr "garbage"]) := by
  refine ⟨rfl, rfl, rfl⟩

/-- C8 (amended): a `NaT` (including every unparseable cell) never
matches the inclusive mask; the shared variant
(`src/shared/date_utils.py`) therefore keeps exactly the rows whose value
parses into `[start, end]` and drops every unparseable row; but the
`src/utils` variant, given a non-datetime column with any cell its strict
parse rejects, returns the input table whole — no row is excluded.
Neither variant raises (both are total functions). -/
theorem date_filter_unparseable_semantics (t : PTable) (col : String)
    (cells : List RawVal) (s e : Int)
    (hne : t.isEmpty = false) (hcol : t.getCol col = some (PCol.raw cells)) :
    (∀ o : Option Int, o = none → inRangeO s e o = false) ∧
    ((shared_filter_dataframe_by_date t col s e).2.getCol col
      = some (PCol.dts false ((cells.map toDatetimeCell).filter (inRangeO s e)))) ∧
    ((cells.mapM toDatetimeStrictCell) = none →
      utils_filter_dataframe_by_date t col s e = (t, t)) := by
  have hsome : (t.getCol col).isNone = false := by
    rw [hcol]
    rfl
  refine ⟨fun o ho => by rw [ho]; rfl, ?_, fun hfail => ?_⟩
  · have hset : ((t.setCol col
        (tzStrip (toDatetimeCoerce (PCol.raw cells)))).getCol col)
        = some (tzStrip (toDatetimeCoerce (PCol.raw cells))) :=
      getCol_setCol t col _ (by rw [hcol]; rfl)
    simp only [shared_filter_dataframe_by_date, hne, hcol, Bool.false_or,
      Option.isNone_some, Bool.false_eq_true, if_false]
    rw [getCol_filterTableByMask, hset]
    have hc2 : tzStrip (toDatetimeCoerce (PCol.raw cells))
        = PCol.dts false (cells.map toDatetimeCell) := rfl
    rw [hc2, Option.map_some']
    refine congrArg some ?_
    show filterColByMask (PCol.dts false (cells.map toDatetimeCell))
        ((cells.map toDatetimeCell).map (inRangeO s e))
      = PCol.dts false ((cells.map toDatetimeCell).filter (inRangeO s e))
    simp only [filterColByMask]
    rw [zip_mask_filter]
  · simp only [utils_filter_dataframe_by_date, hne, hcol, Bool.false_or,
      Option.isNone_some, Bool.false_eq_true, if_false, isDatetimeDtype,
      toDatetimeStrict, hfail, Option.map_none']

/-- C8 witness. -/
theorem date_filter_unparseable_semantics_witness :
    ((shared_filter_dataframe_by_date mixedDateTable "Date" 0 200).2.getCol "Date"
      = some (PCol.dts false
          (([RawVal.vstr "100", RawVal.vstr "garbage"].map toDatetimeCell).filter
            (inRangeO 0 200)))) ∧
    utils_filter_dataframe_by_date mixedDateTable "Date" 0 200
      = (mixedDateTable, mixedDateTable) := by
  have h := date_filter_unparseable_semantics mixedDateTable "Date"
    [RawVal.vstr "100", RawVal.vstr "garbage"] 0 200 rfl rfl
  exact ⟨h.2.1, h.2.2 rfl⟩

/-! ## C9 -/

/-- Four leads of one campaign with mutually exclusive statuses: three
classified `"Interested"` but not flagged as human replies, and one human
reply with an unclassified status. -/
def exclusiveStatusLeads : List LeadRow :=
  [{ campaign_id := 1, status := "Interested", is_human_reply := 0, unique_replies := 1 },
   { campaign_id := 1, status := "Interested", is_human_reply := 0, unique_replies := 1 },
   { campaign_id := 1, status := "Interested", is_human_reply := 0, unique_replies := 1 },
   { campaign_id := 1, status := "Out Of Office", is_human_reply := 1, unique_replies := 1 }]

/-- The campaign counts the aggregator produces from those leads (plus
raw sent/contacted figures). -/
def exclusiveStatusCounts : CCounts :=
  { emails_sent := 10, leads_contacted := 10
    human_reply := (mergeAgg 1 (aggStats exclusiveStatusLeads)).human_reply
    interested_sementic := (mergeAgg 1 (aggStats exclusiveStatusLeads)).interested_sementic
    not_interested := (mergeAgg 1 (aggStats exclusiveStatusLeads)).not_interested
    automated_replies := (mergeAgg 1 (aggStats exclusiveStatusLeads)).automated_replies
    total_replies := (mergeAgg 1 (aggStats exclusiveStatusLeads)).total_replies
    objection := (mergeAgg 1 (aggStats exclusiveStatusLeads)).objection }

/-- C9 (counterexample): mutual exclusivity of the status categories does
not bound the three human-reply-denominator rates by 100.  Through the
pipeline, four leads with mutually exclusive statuses (three `Interested`
rows that are not human replies, one human reply) aggregate to
`human_reply = 1`, `interested_sementic = 3`, and `calculate_kpis`
reports `interested_rate = 300`: the three-rate sum is 300, far above
100% plus any epsilon. -/
theorem subrate_sum_exceeds_100_cex :
    (exclusiveStatusLeads.all (fun l =>
      ((if l.status == "Interested" then 1 else 0) +
       (if l.status == "Not Interested" then 1 else 0) +
       (if l.status == "Objection" || l.status == "Objections" then 1 else 0) : Nat) ≤ 1))
      = true ∧
    (mergeAgg 1 (aggStats exclusiveStatusLeads)).human_reply = 1 ∧
    (mergeAgg 1 (aggStats exclusiveStatusLeads)).interested_sementic = 3 ∧
    (calculate_kpis [processCampaignRow exclusiveStatusCounts]).interested_rate
      = FV.fin 300 ∧
    (calculate_kpis [processCampaignRow exclusiveStatusCounts]).not_interested_rate
      = FV.fin 0 ∧
    (calculate_kpis [processCampaignRow exclusiveStatusCounts]).objection_rate
      = FV.fin 0 ∧
    fvVal (calculate_kpis [processCampaignRow exclusiveStatusCounts]).interested_rate
      + fvVal (calculate_kpis [processCampaignRow exclusiveStatusCounts]).not_interested_rate
      + fvVal (calculate_kpis [processCampaignRow exclusiveStatusCounts]).objection_rate
      = 300 ∧
    ¬ ((300 : ℚ) ≤ 100) := by
  have hfilter : exclusiveStatusLeads.filter (fun l => l.campaign_id == 1)
      = exclusiveStatusLeads := by
    simp [exclusiveStatusLeads]
  have hmem : (1 : Int) ∈ aggKeys exclusiveStatusLeads := by
    simp [aggKeys, exclusiveStatusLeads, List.mem_dedup]
  have hmerge : mergeAgg 1 (aggStats exclusiveStatusLeads) = aggGroup exclusiveStatusLeads := by
    unfold mergeAgg aggStats
    rw [find?_key_map, if_pos hmem, hfilter]
  have hagg : aggGroup exclusiveStatusLeads =
      { human_reply := 1, interested_sementic := 3, not_interested := 0
        automated_replies := 0, total_replies := 4, objection := 0 } := by
    simp [aggGroup, exclusiveStatusLeads]
  have hcounts : exclusiveStatusCounts =
      { emails_sent := 10, leads_contacted := 10, human_reply := 1
        interested_sementic := 3, not_interested := 0, automated_replies := 0
        total_replies := 4, objection := 0 } := by
    unfold exclusiveStatusCounts
    rw [hmerge, hagg]
  refine ⟨by simp [exclusiveStatusLeads], ?_, ?_, ?_, ?_, ?_, ?_, by norm_num⟩
  · rw [hmerge, hagg]
  · rw [hmerge, hagg]
  · rw [hcounts]
    simp [calculate_kpis, processCampaignRow, process_campaigns_rates_email,
      fdiv, fillna0, fvVal]
    norm_num
  · rw [hcounts]
    simp [calculate_kpis, processCampaignRow, process_campaigns_rates_email,
      fdiv, fillna0, fvVal]
  · rw [hcounts]
    simp [calculate_kpis, processCampaignRow, process_campaigns_rates_email,
      fdiv, fillna0, fvVal]
  · rw [hcounts]
    simp [calculate_kpis, processCampaignRow, process_campaigns_rates_email,
      fdiv, fillna0, fvVal]
    norm_num

/-- C9 (amended): the bound holds under the hypothesis the formulas
actually need — the summed classified-status counts do not exceed the
summed human-reply count (e.g. every classified lead is a human reply).
Then the three human-reply-denominator rates of `calculate_kpis` sum to
at most 100. -/
theorem subrate_sum_bounded_when_classified_subset (campaigns : List CRow)
    (hne : campaigns ≠ [])
    (hsum : (campaigns.map (fun r => r.counts.interested_sementic)).sum
        + (campaigns.map (fun r => r.counts.not_interested)).sum
        + (campaigns.map (fun r => r.counts.objection)).sum
        ≤ (campaigns.map (fun r => r.counts.human_reply)).sum) :
    fvVal (calculate_kpis campaigns).interested_rate
      + fvVal (calculate_kpis campaigns).not_interested_rate
      + fvVal (calculate_kpis campaigns).objection_rate ≤ 100 := by
  unfold calculate_kpis
  rw [if_neg hne]
  dsimp only
  by_cases hh : 0 < (campaigns.map (fun r => r.counts.human_reply)).sum
  · rw [if_pos hh, if_pos hh, if_pos hh]
    dsimp only [fvVal]
    set H := (campaigns.map (fun r => r.counts.human_reply)).sum with hH
    set I := (campaigns.map (fun r => r.counts.interested_sementic)).sum with hI
    set N := (campaigns.map (fun r => r.counts.not_interested)).sum with hN
    set O := (campaigns.map (fun r => r.counts.objection)).sum with hO
    have hcomb : I / H * 100 + N / H * 100 + O / H * 100 = (I + N + O) / H * 100 := by
      ring
    rw [hcomb]
    have h1 : (I + N + O) / H ≤ 1 := by
      rw [div_le_one hh]
      exact hsum
    calc (I + N + O) / H * 100 ≤ 1 * 100 :=
          mul_le_mul_of_nonneg_right h1 (by norm_num)
      _ = 100 := by norm_num
  · rw [if_neg hh, if_neg hh, if_neg hh]
    dsimp only [fvVal]
    norm_num

/-- C9 witness. -/
theorem subrate_sum_bounded_when_classified_subset_witness :
    fvVal (calculate_kpis [processCampaignRow
        { human_reply := 2, interested_sementic := 1, not_interested := 1
          leads_contacted := 10 }]).interested_rate
      + fvVal (calculate_kpis [processCampaignRow
        { human_reply := 2, interested_sementic := 1, not_interested := 1
          leads_contacted := 10 }]).not_interested_rate
      + fvVal (calculate_kpis [processCampaignRow
        { human_reply := 2, interested_sementic := 1, not_interested := 1
          leads_contacted := 10 }]).objection_rate ≤ 100 :=
  subrate_sum_bounded_when_classified_subset
    [processCampaignRow
      { human_reply := 2, interested_sementic := 1, not_interested := 1
        leads_contacted := 10 }]
    (by simp)
    (by norm_num [processCampaignRow])

/-! ## C10 -/

/-- A non-empty table whose `Date` column is a raw (object-dtype) column
with an unparseable value. -/
def rawJunkTable : PTable :=
  { cols := [("Date", PCol.raw [RawVal.vstr "junk"])] }

/-- C10 (counterexample): the claim says both variants reassign the named
date column (coercing its values to datetime) whenever it is present and
the table is non-empty.  In the `src/utils` variant an unparseable value
makes the strict `pd.to_datetime` raise before the column assignment, so
the caller's table comes back bit-for-bit unchanged: the column still
holds the raw string, not its datetime coercion. -/
theorem utils_date_filter_no_mutation_cex :
    (utils_filter_dataframe_by_date rawJunkTable "Date" 0 10).1 = rawJunkTable ∧
    rawJunkTable.isEmpty = false ∧
    rawJunkTable.getCol "Date" = some (PCol.raw [RawVal.vstr "junk"]) ∧
    toDatetimeCoerce (PCol.raw [RawVal.vstr "junk"]) = PCol.dts false [none] ∧
    PCol.raw [RawVal.vstr "junk"] ≠ PCol.dts false [none] := by
  refine ⟨rfl, rfl, rfl, rfl, fun h => PCol.noConfusion h⟩

/-- C10 (amended): the frame effect differs between the two variants.
The shared variant, whenever the table is non-empty and the column
present, reassigns exactly that column with its tz-stripped datetime
coercion and leaves every other column unchanged.  The utils variant
leaves the table entirely unmutated when the column already has datetime
dtype or when the strict parse fails, and otherwise reassigns exactly the
named column with the strictly parsed values, leaving every other column
unchanged.  Only the filtered subset is ever returned as the result. -/
theorem date_filter_mutation_semantics (t : PTable) (col : String) (c : PCol) (s e : Int)
    (hne : t.isEmpty = false) (hcol : t.getCol col = some c) :
    ((shared_filter_dataframe_by_date t col s e).1
        = t.setCol col (tzStrip (toDatetimeCoerce c))) ∧
    (∀ name, name ≠ col →
      (shared_filter_dataframe_by_date t col s e).1.getCol name = t.getCol name) ∧
    (isDatetimeDtype c = true → (utils_filter_dataframe_by_date t col s e).1 = t) ∧
    (toDatetimeStrict c = none → (utils_filter_dataframe_by_date t col s e).1 = t) ∧
    (∀ c2, isDatetimeDtype c = false → toDatetimeStrict c = some c2 →
      ((utils_filter_dataframe_by_date t col s e).1 = t.setCol col c2 ∧
        ∀ name, name ≠ col →
          (utils_filter_dataframe_by_date t col s e).1.getCol name = t.getCol name)) := by
  have h1 : (shared_filter_dataframe_by_date t col s e).1
      = t.setCol col (tzStrip (toDatetimeCoerce c)) := by
    simp only [shared_filter_dataframe_by_date, hne, hcol, Bool.false_or,
      Option.isNone_some, Bool.false_eq_true, if_false]
  refine ⟨h1, fun name hname => ?_, fun hdt => ?_, fun hstrict => ?_,
    fun c2 hdt hstrict => ?_⟩
  · rw [h1]
    exact getCol_setCol_ne t col name _ hname
  · simp only [utils_filter_dataframe_by_date, hne, hcol, Bool.false_or,
      Option.isNone_some, Bool.false_eq_true, if_false, hdt, if_true]
  · have hdt : isDatetimeDtype c = false := by
      cases c with
      | raw cells => rfl
      | dts tz cells => exact absurd hstrict (by simp [toDatetimeStrict])
    simp only [utils_filter_dataframe_by_date, hne, hcol, Bool.false_or,
      Option.isNone_some, Bool.false_eq_true, if_false, hdt, hstrict]
  · have h2 : (utils_filter_dataframe_by_date t col s e).1 = t.setCol col c2 := by
      simp only [utils_filter_dataframe_by_date, hne, hcol, Bool.false_or,
        Option.isNone_some, Bool.false_eq_true, if_false, hdt, hstrict]
    refine ⟨h2, fun name hname => ?_⟩
    rw [h2]
    exact getCol_setCol_ne t col name _ hname

/-- C10 witness. -/
theorem date_filter_mutation_semantics_witness :
    ((shared_filter_dataframe_by_date rawJunkTable "Date" 0 10).1
      = rawJunkTable.setCol "Date"
          (tzStrip (toDatetimeCoerce (PCol.raw [RawVal.vstr "junk"])))) ∧
    (toDatetimeStrict (PCol.raw [RawVal.vstr "junk"]) = none →
      (utils_filter_dataframe_by_date rawJunkTable "Date" 0 10).1 = rawJunkTable) := by
  have h := date_filter_mutation_semantics rawJunkTable "Date"
    (PCol.raw [RawVal.vstr "junk"]) 0 10 rfl rfl
  exact ⟨h.1, h.2.2.2.1⟩
